import Mathlib

/-!
Shallow embedding of `src/diesel/src/sqlite/connection/raw.rs`.

The Rust module wraps a native SQLite handle behind a C FFI.  The native
layer is modelled by environment records that fix, for one call of the
function under study, the values the native calls would produce (status
codes, the handle written by `sqlite3_open`, the error-message buffer, the
result table of `sqlite3_get_table`).  Each embedded function returns its
Rust result together with a trace of the native-layer events it performs,
in program order, so that claims about which native calls happen, and in
which order, can be stated and proved.

Machine integers: SQLite status codes are C `int`s; the functions under
study only compare them with `SQLITE_OK` and pass them around, so they are
modelled as `Int`.  Row/column counts written by `sqlite3_get_table` are
non-negative on the success path and are modelled as `Nat` (the Rust code
casts them to `usize`).  Rust byte strings are modelled as Lean `String`;
`CString::new` fails exactly when the string contains a NUL byte, and in
UTF-8 a NUL byte occurs exactly at the NUL code point, so the check is a
`Char`-level scan.
-/
namespace DieselSqliteRaw

abbrev Handle := Nat

/-- Status code `SQLITE_OK` (`ffi::SQLITE_OK`), the single success sentinel. -/
def SQLITE_OK : Int := 0

/-- The constant `BUSY_TIMEOUT: i32 = 5000` from `raw.rs`. -/
def BUSY_TIMEOUT : Int := 5000

/-- Embedding of `ConnectionError`: `InvalidCString` is the variant produced
when `try!(CString::new(..))` fails on an embedded NUL (the encoding error),
`BadConnection` carries the translated native error message. -/
inductive ConnectionError where
  | InvalidCString : ConnectionError
  | BadConnection : String → ConnectionError
deriving DecidableEq

/-- Embedding of `DatabaseErrorKind`: `raw.rs` only ever constructs the
generic `__Unknown` kind. -/
inductive DatabaseErrorKind where
  | Unknown : DatabaseErrorKind
deriving DecidableEq

/-- Embedding of `result::Error` restricted to the variants `raw.rs`
constructs: the `CString::new` encoding failure and `DatabaseError`. -/
inductive Error where
  | InvalidCString : Error
  | DatabaseError : DatabaseErrorKind → String → Error
deriving DecidableEq

/-- One native-layer event performed by the embedded functions, in program
order.  `readCell i` records that entry `i` of the flat native result table
was read (and, when non-null, copied) by `execute_for_string`; `copyMsg m`
records that a native error-message buffer with contents `m` was copied
into process-owned memory; `natFree` / `natFreeTable` record the calls to
`sqlite3_free` / `sqlite3_free_table`. -/
inductive Event where
  | natOpen : Handle → Int → Event
  | natBusyTimeout : Handle → Int → Int → Event
  | natKey : Handle → Nat → Int → Event
  | natRekey : Handle → Nat → Int → Event
  | natExec : String → Event
  | natGetTable : String → Event
  | readCell : Nat → Event
  | natFreeTable : Event
  | copyMsg : String → Event
  | natFree : Event
  | natClose : Handle → Int → Event
deriving DecidableEq

/-- Embedding of `pub struct RawConnection`. -/
structure RawConnection where
  internal_connection : Handle
deriving DecidableEq

/-- `CString::new(s)` fails exactly when `s` contains a NUL byte. -/
def containsNul (s : String) : Bool :=
  s.data.contains (Char.ofNat 0)

/-- Number of `natClose` events in a trace. -/
def countClose (trace : List Event) : Nat :=
  trace.countP (fun e => match e with | Event.natClose _ _ => true | _ => false)

/-- Number of `natKey` events in a trace. -/
def countKey (trace : List Event) : Nat :=
  trace.countP (fun e => match e with | Event.natKey _ _ _ => true | _ => false)

/-- Number of `natFreeTable` events in a trace. -/
def countFreeTable (trace : List Event) : Nat :=
  trace.countP (fun e => match e with | Event.natFreeTable => true | _ => false)

/-- Number of `readCell` events in a trace. -/
def countReads (trace : List Event) : Nat :=
  trace.countP (fun e => match e with | Event.readCell _ => true | _ => false)

/-- Embedding of `ensure_status_code_ok`.  `error_message` stands for
`super::error_message`, defined in the sibling module (not under `src/`):
it is kept abstract as a function from status codes to messages. -/
def ensure_status_code_ok (error_message : Int → String) (status_code : Int) :
    Except ConnectionError Unit :=
  if status_code = SQLITE_OK then Except.ok ()
  else Except.error (ConnectionError.BadConnection (error_message status_code))

/-- Native responses for one `establish` call: the handle `sqlite3_open`
writes into `conn_pointer`, and the status codes of the open, busy-timeout
and key calls, plus the abstract `super::error_message` translator. -/
structure EstablishEnv where
  openHandle : Handle
  openStatus : Int
  busyStatus : Int
  keyStatus : Int
  error_message : Int → String

/-- Embedding of `RawConnection::establish`.  Follows the source line by
line: NUL-check the url, `sqlite3_open`, `ensure_status_code_ok` on the
open status, `sqlite3_busy_timeout(conn, BUSY_TIMEOUT)`; if a password is
present, `ensure_status_code_ok` on the busy status, NUL-check the
password, `sqlite3_key`; finally match the last status against `SQLITE_OK`.
No error branch issues a close on the opened handle. -/
def establish (env : EstablishEnv) (database_url : String) (password : Option String) :
    Except ConnectionError RawConnection × List Event :=
  if containsNul database_url then (Except.error ConnectionError.InvalidCString, [])
  else
    let conn_pointer := env.openHandle
    let trace0 := [Event.natOpen conn_pointer env.openStatus]
    match ensure_status_code_ok env.error_message env.openStatus with
    | Except.error e => (Except.error e, trace0)
    | Except.ok _ =>
      let trace1 := trace0 ++ [Event.natBusyTimeout conn_pointer BUSY_TIMEOUT env.busyStatus]
      match password with
      | none =>
        if env.busyStatus = SQLITE_OK then
          (Except.ok { internal_connection := conn_pointer }, trace1)
        else
          (Except.error (ConnectionError.BadConnection (env.error_message env.busyStatus)),
           trace1)
      | some pwd =>
        match ensure_status_code_ok env.error_message env.busyStatus with
        | Except.error e => (Except.error e, trace1)
        | Except.ok _ =>
          if containsNul pwd then (Except.error ConnectionError.InvalidCString, trace1)
          else
            let passphrase_len := pwd.utf8ByteSize + 1
            let trace2 := trace1 ++ [Event.natKey conn_pointer passphrase_len env.keyStatus]
            if env.keyStatus = SQLITE_OK then
              (Except.ok { internal_connection := conn_pointer }, trace2)
            else
              (Except.error (ConnectionError.BadConnection (env.error_message env.keyStatus)),
               trace2)

/-- Embedding of `convert_to_string`: copies the bytes of a native C string
into a process-owned `String`; content-wise the identity on the modelled
buffer contents. -/
def convert_to_string (raw_msg : String) : String := raw_msg

/-- Embedding of `convert_to_string_and_free`: copy the message, then
`sqlite3_free` the native buffer.  Returns the owned copy and the two
events in that order. -/
def convert_to_string_and_free (raw_msg : String) : String × List Event :=
  (convert_to_string raw_msg, [Event.copyMsg raw_msg, Event.natFree])

/-- Native response for one `sqlite3_exec` call: the error-message buffer
it writes (`none` models the null pointer). -/
structure ExecEnv where
  errMsg : Option String

/-- Embedding of `RawConnection::exec`: NUL-check the query, call
`sqlite3_exec`, then decide success purely by the nullness of `err_msg`. -/
def exec (env : ExecEnv) (query : String) : Except Error Unit × List Event :=
  if containsNul query then (Except.error Error.InvalidCString, [])
  else
    let trace0 := [Event.natExec query]
    match env.errMsg with
    | none => (Except.ok (), trace0)
    | some err_msg =>
      let cf := convert_to_string_and_free err_msg
      (Except.error (Error.DatabaseError DatabaseErrorKind.Unknown cf.1), trace0 ++ cf.2)

/-- Native response for one `sqlite3_rekey` call: its status code. -/
structure RekeyEnv where
  handle : Handle
  rekeyStatus : Int

/-- Embedding of `RawConnection::rekey`: NUL-check the password, call
`sqlite3_rekey`, and return its raw status code wrapped in `Ok` with no
translation. -/
def rekey (env : RekeyEnv) (password : String) : Except Error Int × List Event :=
  if containsNul password then (Except.error Error.InvalidCString, [])
  else
    let passphrase_len := password.utf8ByteSize + 1
    (Except.ok env.rekeyStatus,
     [Event.natRekey env.handle passphrase_len env.rekeyStatus])

/-- Rendering of one table cell, as in the loop body of
`execute_for_string`: a null pointer becomes the literal `"NULL"`, a
non-null pointer is copied via `convert_to_string`. -/
def renderCell (element : Option String) : String :=
  match element with
  | none => "NULL"
  | some v => convert_to_string v

/-- The strings pushed for flat index `index`, as in the source:
`values.get(index)` followed by the null check — nothing is pushed when the
index is out of bounds, `"NULL"` for a null pointer, the copied string
otherwise. -/
def cellEntry (values : List (Option String)) (index : Nat) : List String :=
  match values.get? index with
  | none => []
  | some element => [renderCell element]

/-- Native responses for one `sqlite3_get_table` call: the error-message
buffer (`none` models null), the written data-row count `R` (excluding the
header row) and column count `C`, and the contents of the flat native
table (`cells i = none` models a null cell pointer; physically the table
holds `(R+1)*C` entries, row `0` being the header). -/
structure GetTableEnv where
  errMsg : Option String
  rowNum : Nat
  columnNum : Nat
  cells : Nat → Option String

/-- Embedding of `RawConnection::execute_for_string`: NUL-check the query,
call `sqlite3_get_table`; on a non-null error message, copy-and-free it and
return a generic database error without touching the table; otherwise set
`row_num := R + 1`, view the table as a flat slice of `row_num * column_num`
entries, loop over rows `1..row_num` and columns `0..column_num` reading the
cell at `row_index * column_num + column_index`, join cells with
`delimiter` and rows with a newline, then `sqlite3_free_table` once. -/
def execute_for_string (env : GetTableEnv) (query delimiter : String) :
    Except Error String × List Event :=
  if containsNul query then (Except.error Error.InvalidCString, [])
  else
    let trace0 := [Event.natGetTable query]
    match env.errMsg with
    | some raw_msg =>
      let cf := convert_to_string_and_free raw_msg
      (Except.error (Error.DatabaseError DatabaseErrorKind.Unknown cf.1), trace0 ++ cf.2)
    | none =>
      let row_num := env.rowNum + 1
      let column_num := env.columnNum
      let values := (List.range (row_num * column_num)).map env.cells
      let row_values := (List.range' 1 env.rowNum).map (fun row_index =>
        String.intercalate delimiter
          (List.flatten ((List.range column_num).map (fun column_index =>
            cellEntry values (row_index * column_num + column_index)))))
      let reads := List.flatten ((List.range' 1 env.rowNum).map (fun row_index =>
        (List.range column_num).map (fun column_index =>
          Event.readCell (row_index * column_num + column_index))))
      (Except.ok (String.intercalate "\n" row_values),
       trace0 ++ reads ++ [Event.natFreeTable])

/-- Outcome of `Drop for RawConnection`: clean return, a diagnostic written
to stderr (taken when `std::thread::panicking()` holds), or a panic. -/
inductive DropOutcome where
  | normal : DropOutcome
  | wroteStderr : String → DropOutcome
  | panicked : String → DropOutcome
deriving DecidableEq

/-- Embedding of `impl Drop for RawConnection`: unconditionally call
`sqlite3_close` on the handle; on a non-OK status, panic with the close
error message unless the thread is already panicking, in which case the
message is only written to stderr. -/
def dropRawConnection (error_message : Int → String) (conn : RawConnection)
    (close_result : Int) (panicking : Bool) : DropOutcome × List Event :=
  let trace := [Event.natClose conn.internal_connection close_result]
  if close_result = SQLITE_OK then (DropOutcome.normal, trace)
  else
    let msg := "Error closing SQLite connection: " ++ error_message close_result
    if panicking then (DropOutcome.wroteStderr msg, trace)
    else (DropOutcome.panicked msg, trace)

/-- The table text as the spec describes it (spec-side formula, for
comparison with `execute_for_string`): logical rows `1..=R`, `C` cells per
row read at flat offset `row_index * C`, cells joined with the delimiter,
rows joined with a newline, nulls rendered as `"NULL"`. -/
def specTableText (cells : Nat → Option String) (R C : Nat) (delimiter : String) : String :=
  String.intercalate "\n" ((List.range' 1 R).map (fun row_index =>
    String.intercalate delimiter ((List.range C).map (fun column_index =>
      renderCell (cells (row_index * C + column_index))))))

/-- Concrete two-column table from the spec example: header row, then data
rows `(1,2)` and `(NULL,4)`. -/
def c4Env : GetTableEnv where
  errMsg := none
  rowNum := 2
  columnNum := 2
  cells := fun index =>
    [some "a", some "b", some "1", some "2", none, some "4"].getD index none

/-- Concrete three-column table used as the C3 witness: header row, then
data rows `(r11, NULL, r13)` and `(r21, r22, NULL)`. -/
def c3Env : GetTableEnv where
  errMsg := none
  rowNum := 2
  columnNum := 3
  cells := fun index =>
    [some "h1", some "h2", some "h3", some "r11", none, some "r13",
     some "r21", some "r22", none].getD index none

/-- Environment for the C8 witness: open and busy-timeout succeed, the key
call fails with status 26. -/
def c8Env : EstablishEnv where
  openHandle := 9
  openStatus := 0
  busyStatus := 0
  keyStatus := 26
  error_message := fun code => "status " ++ toString code

/-- Environment for the C1 failing input: the native open succeeds and
writes handle 7, then the busy-timeout call fails with status 5. -/
def leakEnv : EstablishEnv where
  openHandle := 7
  openStatus := 0
  busyStatus := 5
  keyStatus := 0
  error_message := fun _ => "database is locked"

/-- Environment for the C2 counterexample and witness: open and
busy-timeout both succeed. -/
def c2Env : EstablishEnv where
  openHandle := 3
  openStatus := 0
  busyStatus := 0
  keyStatus := 0
  error_message := fun _ => "no error"

/-- A passphrase with an embedded NUL byte. -/
def nulPassphrase : String := "secret\x00key"

/-! ### Helper lemmas -/

/-- The `readCell` trace of the success path of `execute_for_string`
contains no `natFreeTable` event. -/
theorem countFreeTable_reads (R C : Nat) :
    countFreeTable (List.flatten ((List.range' 1 R).map (fun row_index =>
      (List.range C).map (fun column_index =>
        Event.readCell (row_index * C + column_index))))) = 0 := by
  unfold countFreeTable
  rw [List.countP_eq_zero]
  intro e he
  simp only [List.mem_flatten, List.mem_map] at he
  obtain ⟨l, ⟨r, _, rfl⟩, hel⟩ := he
  obtain ⟨c, _, rfl⟩ := List.mem_map.mp hel
  simp

theorem cellEntry_range_map (cells : Nat → Option String) (n index : Nat) (h : index < n) :
    cellEntry ((List.range n).map cells) index = [renderCell (cells index)] := by
  unfold cellEntry
  rw [List.get?_map, List.get?_range h]
  rfl

theorem flatten_map_singleton {α β : Type} (f : α → β) (l : List α) :
    List.flatten (l.map (fun a => [f a])) = l.map f := by
  induction l with
  | nil => rfl
  | cons a l ih => simp [ih]

theorem flat_index_lt (R C r c : Nat) (hr : r < 1 + R) (hc : c < C) :
    r * C + c < (R + 1) * C := by
  have h1 : r * C + c < (r + 1) * C := by
    have := Nat.add_lt_add_left hc (r * C)
    calc r * C + c < r * C + C := this
    _ = (r + 1) * C := by ring
  have h2 : (r + 1) * C ≤ (R + 1) * C := Nat.mul_le_mul_right _ (by omega)
  omega

/-! ### Claim theorems, witnesses and counterexamples -/

/-- Claim C7: for every passphrase without an embedded NUL byte, `rekey`
returns `Ok` carrying the raw native status code of the `sqlite3_rekey`
call, for every status code the native layer may produce — in particular a
non-OK status is never mapped into a structured error. -/
theorem rekey_returns_raw_status (env : RekeyEnv) (password : String)
    (hp : containsNul password = false) :
    (rekey env password).1 = Except.ok env.rekeyStatus := by
  simp [rekey, hp]

/-- Witness for C7 at a concrete non-OK status: `rekey` still returns
`Ok 21`. -/
theorem rekey_returns_raw_status_witness :
    containsNul "new-pass" = false ∧
      (rekey { handle := 4, rekeyStatus := 21 } "new-pass").1 = Except.ok 21 :=
  ⟨by decide, rekey_returns_raw_status { handle := 4, rekeyStatus := 21 } "new-pass" (by decide)⟩

/-- Claim C6: for every statement without an embedded NUL byte, `exec`
returns `Ok` exactly when the native layer produced no error message (null
`err_msg`); otherwise it returns a generic `DatabaseError` carrying the
native message, and the trace shows the message copied into process-owned
memory (`copyMsg`) strictly before the native buffer is freed (`natFree`). -/
theorem exec_error_message_convention (env : ExecEnv) (query : String)
    (hq : containsNul query = false) :
    ((exec env query).1 = Except.ok () ↔ env.errMsg = none) ∧
    (∀ m, env.errMsg = some m →
      (exec env query).1 = Except.error (Error.DatabaseError DatabaseErrorKind.Unknown m) ∧
      (exec env query).2 = [Event.natExec query, Event.copyMsg m, Event.natFree]) := by
  cases h : env.errMsg <;>
    simp [exec, hq, h, convert_to_string_and_free, convert_to_string]

/-- Witness for C6 at a concrete failing statement: the result is the
generic database error and the trace is exec, copy, free, in that order. -/
theorem exec_error_message_convention_witness :
    containsNul "BROKEN SQL" = false ∧
      (exec { errMsg := some "near BROKEN" } "BROKEN SQL").1 =
        Except.error (Error.DatabaseError DatabaseErrorKind.Unknown "near BROKEN") ∧
      (exec { errMsg := some "near BROKEN" } "BROKEN SQL").2 =
        [Event.natExec "BROKEN SQL", Event.copyMsg "near BROKEN", Event.natFree] :=
  ⟨by decide,
   (exec_error_message_convention { errMsg := some "near BROKEN" } "BROKEN SQL"
      (by decide)).2 "near BROKEN" rfl⟩

/-- Claim C9: dropping a `RawConnection` issues the native close on its
handle exactly once, unconditionally; a non-OK close status while not
unwinding panics with the close error message, while the same status during
unwinding only writes the diagnostic to stderr. -/
theorem drop_close_exactly_once (error_message : Int → String) (conn : RawConnection)
    (close_result : Int) (panicking : Bool) :
    (dropRawConnection error_message conn close_result panicking).2 =
      [Event.natClose conn.internal_connection close_result] ∧
    (close_result = SQLITE_OK →
      (dropRawConnection error_message conn close_result panicking).1 =
        DropOutcome.normal) ∧
    (close_result ≠ SQLITE_OK → panicking = false →
      (dropRawConnection error_message conn close_result panicking).1 =
        DropOutcome.panicked
          ("Error closing SQLite connection: " ++ error_message close_result)) ∧
    (close_result ≠ SQLITE_OK → panicking = true →
      (dropRawConnection error_message conn close_result panicking).1 =
        DropOutcome.wroteStderr
          ("Error closing SQLite connection: " ++ error_message close_result)) := by
  by_cases h : close_result = SQLITE_OK <;> cases panicking <;>
    simp [dropRawConnection, h]

/-- Witness for C9 at a concrete failed close in a non-unwinding thread:
exactly one close event, and the outcome is a panic with the message. -/
theorem drop_close_exactly_once_witness :
    (dropRawConnection (fun _ => "unfinalized statements") { internal_connection := 2 }
        5 false).2 = [Event.natClose 2 5] ∧
    (dropRawConnection (fun _ => "unfinalized statements") { internal_connection := 2 }
        5 false).1 =
      DropOutcome.panicked ("Error closing SQLite connection: " ++ "unfinalized statements") :=
  ⟨(drop_close_exactly_once (fun _ => "unfinalized statements")
      { internal_connection := 2 } 5 false).1,
   (drop_close_exactly_once (fun _ => "unfinalized statements")
      { internal_connection := 2 } 5 false).2.2.1 (by decide) rfl⟩

/-- Claim C10 (implicit): for every successful table query reporting zero
data rows, `execute_for_string` returns `Ok` of the empty string, for every
column count, cell contents and delimiter — the header row is never
emitted. -/
theorem execute_for_string_empty_when_no_rows (env : GetTableEnv) (query delimiter : String)
    (hq : containsNul query = false) (he : env.errMsg = none) (hr : env.rowNum = 0) :
    (execute_for_string env query delimiter).1 = Except.ok "" := by
  simp [execute_for_string, hq, he, hr]
  rfl

/-- Witness for C10 at a concrete header-only result (three columns). -/
theorem execute_for_string_empty_when_no_rows_witness :
    containsNul "SELECT a,b,c FROM empty_t" = false ∧
      (execute_for_string
        { errMsg := none, rowNum := 0, columnNum := 3, cells := fun _ => some "h" }
        "SELECT a,b,c FROM empty_t" ";").1 = Except.ok "" :=
  ⟨by decide,
   execute_for_string_empty_when_no_rows
     { errMsg := none, rowNum := 0, columnNum := 3, cells := fun _ => some "h" }
     "SELECT a,b,c FROM empty_t" ";" (by decide) rfl rfl⟩

/-- Claim C4: a cell whose native pointer is null is rendered as the
literal token `"NULL"`, a non-null cell is rendered as its own contents (so
a native null never renders like the empty string), and on the spec's
two-column example with data rows `(1,2)` and `(NULL,4)` and delimiter `","`
the result is exactly `"1,2\nNULL,4"`. -/
theorem execute_for_string_null_token :
    renderCell none = "NULL" ∧
    (∀ s : String, renderCell (some s) = s) ∧
    ((renderCell none == renderCell (some "")) = false) ∧
    (execute_for_string c4Env "SELECT a,b FROM t" ",").1 = Except.ok "1,2\nNULL,4" := by
  refine ⟨rfl, fun s => rfl, by decide, ?_⟩
  rfl

/-- Claim C3: on every successful table query (no embedded NUL in the
query, null error message) reporting `R` data rows and `C` columns,
`execute_for_string` builds its output from logical rows `1..=R` only
(skipping the header row `0`), reading exactly `C` cells per row at flat
offsets `row_index * C + column_index`, joining cells with the delimiter
and rows with a single newline — i.e. it returns exactly the spec-side
formula `specTableText`. -/
theorem execute_for_string_row_layout (env : GetTableEnv) (query delimiter : String)
    (hq : containsNul query = false) (he : env.errMsg = none) :
    (execute_for_string env query delimiter).1 =
      Except.ok (specTableText env.cells env.rowNum env.columnNum delimiter) := by
  simp only [execute_for_string, hq, Bool.false_eq_true, if_false, he, specTableText]
  congr 1
  congr 1
  apply List.map_congr_left
  intro r hr
  have hrlt : r < 1 + env.rowNum := (List.mem_range'_1.mp hr).2
  have hcell : ∀ c ∈ List.range env.columnNum,
      cellEntry ((List.range ((env.rowNum + 1) * env.columnNum)).map env.cells)
          (r * env.columnNum + c) =
        [renderCell (env.cells (r * env.columnNum + c))] := fun c hc =>
    cellEntry_range_map env.cells _ _
      (flat_index_lt env.rowNum env.columnNum r c hrlt (List.mem_range.mp hc))
  rw [List.map_congr_left hcell, flatten_map_singleton]

/-- Witness for C3 at the concrete table: the output equals the spec-side
formula, which evaluates to the expected two data lines. -/
theorem execute_for_string_row_layout_witness :
    containsNul "SELECT x,y,z FROM t" = false ∧
    (execute_for_string c3Env "SELECT x,y,z FROM t" "|").1 =
      Except.ok (specTableText c3Env.cells 2 3 "|") ∧
    specTableText c3Env.cells 2 3 "|" = "r11|NULL|r13\nr21|r22|NULL" :=
  ⟨by decide,
   execute_for_string_row_layout c3Env "SELECT x,y,z FROM t" "|" (by decide) rfl,
   rfl⟩

/-- Claim C5: with a NUL-free query, on the error path of
`execute_for_string` (non-null native error message) the result is the
generic database error carrying the message and the trace contains no
table-free and no cell-read event — the table pointer is neither read nor
freed; on the success path the trace frees the native table exactly once,
and that free is the last event, hence after every cell copy. -/
theorem execute_for_string_free_discipline (env : GetTableEnv) (query delimiter : String)
    (hq : containsNul query = false) :
    (∀ m, env.errMsg = some m →
      (execute_for_string env query delimiter).1 =
        Except.error (Error.DatabaseError DatabaseErrorKind.Unknown m) ∧
      countFreeTable (execute_for_string env query delimiter).2 = 0 ∧
      countReads (execute_for_string env query delimiter).2 = 0) ∧
    (env.errMsg = none →
      countFreeTable (execute_for_string env query delimiter).2 = 1 ∧
      (execute_for_string env query delimiter).2.getLast? = some Event.natFreeTable) := by
  constructor
  · intro m hm
    simp [execute_for_string, hq, hm, convert_to_string_and_free, convert_to_string,
      countFreeTable, countReads, List.countP_cons]
  · intro he
    simp only [execute_for_string, hq, Bool.false_eq_true, if_false, he]
    constructor
    · unfold countFreeTable
      rw [List.countP_append, List.countP_append]
      have h0 := countFreeTable_reads env.rowNum env.columnNum
      unfold countFreeTable at h0
      rw [h0]
      rfl
    · rw [List.getLast?_concat]

/-- Witness for C5 on both paths: a concrete failing query (error message
present: no free, no reads) and the concrete C3 table (free exactly once,
as the last event). -/
theorem execute_for_string_free_discipline_witness :
    containsNul "SELECT * FROM missing" = false ∧
    (execute_for_string
        { errMsg := some "no such table: missing", rowNum := 0, columnNum := 0,
          cells := fun _ => none } "SELECT * FROM missing" ",").1 =
      Except.error (Error.DatabaseError DatabaseErrorKind.Unknown "no such table: missing") ∧
    countFreeTable (execute_for_string
        { errMsg := some "no such table: missing", rowNum := 0, columnNum := 0,
          cells := fun _ => none } "SELECT * FROM missing" ",").2 = 0 ∧
    countFreeTable (execute_for_string c3Env "SELECT x,y,z FROM t" "|").2 = 1 ∧
    (execute_for_string c3Env "SELECT x,y,z FROM t" "|").2.getLast? =
      some Event.natFreeTable := by
  have herr := (execute_for_string_free_discipline
    { errMsg := some "no such table: missing", rowNum := 0, columnNum := 0,
      cells := fun _ => none } "SELECT * FROM missing" "," (by decide)).1
    "no such table: missing" rfl
  have hok := (execute_for_string_free_discipline c3Env "SELECT x,y,z FROM t" "|"
    (by decide)).2 rfl
  exact ⟨by decide, herr.1, herr.2.1, hok.1, hok.2⟩

/-- Claim C8: the busy-timeout constant is the fixed value 5000; after a
successful native open the very next native call (the second trace event)
is the busy-timeout call with that value, before any other operation
(in particular before the key call); and every non-OK status at any step
of `establish` — open, busy-timeout (with or without a password), or key —
is mapped into `ConnectionError.BadConnection` carrying the translated
native error message for that status. -/
theorem establish_busy_timeout_and_bad_connection (env : EstablishEnv)
    (database_url : String) (password : Option String)
    (hu : containsNul database_url = false) :
    BUSY_TIMEOUT = 5000 ∧
    (env.openStatus = SQLITE_OK →
      ((establish env database_url password).2).take 2 =
        [Event.natOpen env.openHandle SQLITE_OK,
         Event.natBusyTimeout env.openHandle BUSY_TIMEOUT env.busyStatus]) ∧
    (env.openStatus ≠ SQLITE_OK →
      (establish env database_url password).1 =
        Except.error (ConnectionError.BadConnection (env.error_message env.openStatus)) ∧
      (establish env database_url password).2 =
        [Event.natOpen env.openHandle env.openStatus]) ∧
    (env.openStatus = SQLITE_OK → env.busyStatus ≠ SQLITE_OK →
      (establish env database_url password).1 =
        Except.error (ConnectionError.BadConnection (env.error_message env.busyStatus))) ∧
    (∀ pwd, password = some pwd → containsNul pwd = false →
      env.openStatus = SQLITE_OK → env.busyStatus = SQLITE_OK → env.keyStatus ≠ SQLITE_OK →
      (establish env database_url password).1 =
        Except.error (ConnectionError.BadConnection (env.error_message env.keyStatus))) := by
  refine ⟨rfl, ?_, ?_, ?_, ?_⟩
  · intro ho
    cases password with
    | none =>
      by_cases hb : env.busyStatus = SQLITE_OK <;>
        simp [establish, hu, ensure_status_code_ok, ho, hb]
    | some pwd =>
      by_cases hb : env.busyStatus = SQLITE_OK
      · by_cases hp : containsNul pwd
        · simp [establish, hu, ensure_status_code_ok, ho, hb, hp]
        · by_cases hk : env.keyStatus = SQLITE_OK <;>
            simp [establish, hu, ensure_status_code_ok, ho, hb, hp, hk]
      · simp [establish, hu, ensure_status_code_ok, ho, hb]
  · intro ho
    cases password <;> simp [establish, hu, ensure_status_code_ok, ho]
  · intro ho hb
    cases password with
    | none => simp [establish, hu, ensure_status_code_ok, ho, hb]
    | some pwd => simp [establish, hu, ensure_status_code_ok, ho, hb]
  · intro pwd hpwd hp ho hb hk
    subst hpwd
    simp [establish, hu, ensure_status_code_ok, ho, hb, hp, hk]

/-- Witness for C8 at a concrete failing key call: the first two events are
the open and the 5000 busy-timeout call, and the result is `BadConnection`
with the translated message for status 26. -/
theorem establish_busy_timeout_and_bad_connection_witness :
    containsNul "key.db" = false ∧
    ((establish c8Env "key.db" (some "pw")).2).take 2 =
      [Event.natOpen 9 SQLITE_OK, Event.natBusyTimeout 9 BUSY_TIMEOUT 0] ∧
    (establish c8Env "key.db" (some "pw")).1 =
      Except.error (ConnectionError.BadConnection (c8Env.error_message 26)) := by
  have h := establish_busy_timeout_and_bad_connection c8Env "key.db" (some "pw") (by decide)
  exact ⟨by decide, h.2.1 rfl, h.2.2.2.2 "pw" rfl (by decide) rfl rfl (by decide)⟩

/-- Claim C1 (code evaluated at the failing input): when the busy-timeout
call fails after a successful open, `establish` returns `Err`, yet its
native trace is exactly the open and busy-timeout calls and contains no
close event — the already-opened handle survives unclosed, i.e. it leaks,
contradicting the claimed atomicity. -/
theorem establish_busy_failure_leaks_handle :
    (establish leakEnv "leak.db" none).1 =
      Except.error (ConnectionError.BadConnection "database is locked") ∧
    (establish leakEnv "leak.db" none).2 =
      [Event.natOpen 7 0, Event.natBusyTimeout 7 5000 5] ∧
    countClose (establish leakEnv "leak.db" none).2 = 0 :=
  ⟨rfl, rfl, rfl⟩

/-- Counterexample to C2 as stated: for the concrete NUL-containing
passphrase, `establish` does fail with the encoding error, but its trace
consists of two native calls (the open and the busy-timeout) that were
attempted before the failure was returned — so "no native call is
attempted" is false for `establish`. -/
theorem establish_nul_passphrase_makes_native_calls :
    containsNul nulPassphrase = true ∧
    (establish c2Env "enc.db" (some nulPassphrase)).1 =
      Except.error ConnectionError.InvalidCString ∧
    (establish c2Env "enc.db" (some nulPassphrase)).2 =
      [Event.natOpen 3 0, Event.natBusyTimeout 3 5000 0] ∧
    (establish c2Env "enc.db" (some nulPassphrase)).2.length = 2 :=
  ⟨by decide, rfl, rfl, rfl⟩

/-- Claim C2 as amended: for every passphrase containing an embedded NUL
byte, `rekey` fails with the encoding error with no native call attempted,
and `establish` (when the open and busy-timeout statuses are OK, so that
control reaches the passphrase) fails with the encoding error before any
native key call is attempted — the passphrase never reaches the native
layer — but the native open and busy-timeout calls have already been made. -/
theorem nul_passphrase_encoding_error (renv : RekeyEnv) (eenv : EstablishEnv)
    (url pwd : String) (hp : containsNul pwd = true) :
    ((rekey renv pwd).1 = Except.error Error.InvalidCString ∧ (rekey renv pwd).2 = []) ∧
    (containsNul url = false → eenv.openStatus = SQLITE_OK → eenv.busyStatus = SQLITE_OK →
      (establish eenv url (some pwd)).1 = Except.error ConnectionError.InvalidCString ∧
      countKey (establish eenv url (some pwd)).2 = 0 ∧
      (establish eenv url (some pwd)).2 =
        [Event.natOpen eenv.openHandle SQLITE_OK,
         Event.natBusyTimeout eenv.openHandle BUSY_TIMEOUT SQLITE_OK]) := by
  constructor
  · constructor <;> simp [rekey, hp]
  · intro hu ho hb
    refine ⟨?_, ?_, ?_⟩ <;>
      simp [establish, hu, ho, hb, hp, ensure_status_code_ok, countKey, List.countP_cons]

/-- Witness for the amended C2 at the concrete NUL passphrase: `rekey`
fails with an empty trace, and `establish` fails with no key event after
exactly the open and busy-timeout calls. -/
theorem nul_passphrase_encoding_error_witness :
    containsNul nulPassphrase = true ∧
    (rekey { handle := 4, rekeyStatus := 0 } nulPassphrase).1 =
      Except.error Error.InvalidCString ∧
    (rekey { handle := 4, rekeyStatus := 0 } nulPassphrase).2 = [] ∧
    (establish c2Env "enc.db" (some nulPassphrase)).1 =
      Except.error ConnectionError.InvalidCString ∧
    countKey (establish c2Env "enc.db" (some nulPassphrase)).2 = 0 := by
  have h := nul_passphrase_encoding_error { handle := 4, rekeyStatus := 0 } c2Env
    "enc.db" nulPassphrase (by decide)
  have h2 := h.2 (by decide) rfl rfl
  exact ⟨by decide, h.1.1, h.1.2, h2.1, h2.2.1⟩

end DieselSqliteRaw
